import Mathlib

/-!
Verification of the Smart-Ai-Tools directory application core logic.

Server side: a shallow embedding of
`server/controllers/smartPromptController.js` — the prompt CRUD
controllers, the dynamic query builder of `getPrompts`, pagination,
access checks and the rating endpoint.

Client side: a shallow embedding of the tools state container
(`ToolsProvider`) — the page cache of `loadTools`, its error path, and
the derived `categoryStats` view.

Records live in an explicit store modelled as a list; the document
database is external, so its `find`, `findById`, `countDocuments` and
per-document update primitives are modelled by list operations, and
Mongo query objects by an explicit `Query` structure interpreted by
`matchQuery`.
-/

namespace SmartAiTools

/-- A prompt record (SmartPrompt document). The `creator` field holds the
owner identity; `ratings` is the ordered list of (rater, value) pairs and
`averageRating` the derived average. Rating values are rationals because
the controller places no integrality restriction on the request body
number. -/
structure Prompt where
  id : String
  creator : String
  title : String
  description : String
  tags : List String
  category : String
  visibility : String
  sharedWith : List String
  ratings : List (String × ℚ)
  averageRating : ℚ
deriving Repr, DecidableEq

/-- `SmartPrompt.findById`: first record in the store with the given id. -/
def findById (store : List Prompt) (id : String) : Option Prompt :=
  store.find? (fun p => p.id == id)

/-- Lower-case a string character by character, for the `i` regex option. -/
def lowerChars (s : String) : List Char :=
  s.toList.map Char.toLower

/-- `startsWithL hay pat` holds when `pat` is an initial segment of `hay`. -/
def startsWithL : List Char → List Char → Bool
  | _, [] => true
  | [], _ :: _ => false
  | a :: as, b :: bs => a == b && startsWithL as bs

/-- `hasSubL hay pat` holds when `pat` occurs contiguously in `hay`. -/
def hasSubL : List Char → List Char → Bool
  | [], pat => startsWithL [] pat
  | a :: t, pat => startsWithL (a :: t) pat || hasSubL t pat

/-- Case-insensitive substring test, the model of
`{ $regex: search, $options: i }` applied to a plain search string
(no regex metacharacters interpreted: the controller passes the raw text). -/
def iContains (hay pat : String) : Bool :=
  hasSubL (lowerChars hay) (lowerChars pat)

/-- One atomic condition of a Mongo query object built by `getPrompts`. -/
inductive Cond where
  | visEq (v : String)
  | visIn (vs : List String)
  | creatorEq (u : String)
  | ratingsUserId (u : String)
  | sharedWithHas (u : String)
  | categoryEq (c : String)
  | titleSearch (s : String)
  | descSearch (s : String)
  | tagsSearch (s : String)
deriving Repr, DecidableEq

/-- The query object assembled by `getPrompts`: one optional slot per
top-level key it may set. A JS object has a single `$or` key, so the
builder storing to `query.$or` twice keeps only the second value. -/
structure Query where
  visibility : Option Cond := none
  creator : Option String := none
  ratingsUserId : Option String := none
  sharedWith : Option String := none
  category : Option String := none
  orClause : Option (List Cond) := none
deriving Repr, DecidableEq

/-- Interpretation of one condition against a record. Equality against the
array fields `sharedWith` and `tags` follows Mongo semantics: an array
field matches a scalar when some element matches. -/
def matchCond (p : Prompt) : Cond → Bool
  | .visEq v => p.visibility == v
  | .visIn vs => vs.contains p.visibility
  | .creatorEq u => p.creator == u
  | .ratingsUserId u => p.ratings.any (fun e => e.1 == u)
  | .sharedWithHas u => p.sharedWith.contains u
  | .categoryEq c => p.category == c
  | .titleSearch s => iContains p.title s
  | .descSearch s => iContains p.description s
  | .tagsSearch s => p.tags.any (fun t => iContains t s)

/-- Interpretation of the whole query object: all present keys must hold
(Mongo conjoins top-level keys), and `$or` holds when some branch does. -/
def matchQuery (q : Query) (p : Prompt) : Bool :=
  (match q.visibility with | some c => matchCond p c | none => true) &&
  (match q.creator with | some u => p.creator == u | none => true) &&
  (match q.ratingsUserId with | some u => p.ratings.any (fun e => e.1 == u) | none => true) &&
  (match q.sharedWith with | some u => p.sharedWith.contains u | none => true) &&
  (match q.category with | some c => p.category == c | none => true) &&
  (match q.orClause with | some cs => cs.any (matchCond p) | none => true)

/-- The optional request filters read by `getPrompts` from `req.query`.
`visibility` may arrive as a scalar or as an array. -/
structure FilterSet where
  category : Option String := none
  search : Option String := none
  visibility : Option (String ⊕ List String) := none
  userId : Option String := none
  favorites : Option String := none
  sharedWith : Option String := none
  accessibleBy : Option String := none
deriving Repr

/-- The query-building section of `getPrompts` (lines 36-79), branch for
branch in source order. Both the `accessibleBy` branch and the `search`
branch assign to `query.$or`; when both filters are present the later
`search` assignment replaces the `accessibleBy` disjunction. -/
def buildQuery (fs : FilterSet) : Query :=
  let q : Query := {}
  let q := match fs.visibility with
    | some (.inr vs) => { q with visibility := some (.visIn vs) }
    | some (.inl v) => { q with visibility := some (.visEq v) }
    | none => q
  let q := match fs.userId with
    | some u => { q with creator := some u }
    | none => q
  let q := match fs.favorites with
    | some u => { q with ratingsUserId := some u }
    | none => q
  let q := match fs.sharedWith with
    | some u => { q with sharedWith := some u }
    | none => q
  let q := match fs.accessibleBy with
    | some a =>
      let ors := [Cond.visEq "public", Cond.creatorEq a, Cond.sharedWithHas a]
      { q with orClause := some ors }
    | none => q
  let q := match fs.category with
    | some c => { q with category := some c }
    | none => q
  match fs.search with
  | some s =>
    let ors := [Cond.titleSearch s, Cond.descSearch s, Cond.tagsSearch s]
    { q with orClause := some ors }
  | none => q

/-- The listing response shape of `getPrompts`. -/
structure ListResponse where
  prompts : List Prompt
  totalPages : Nat
  totalCount : Nat
  currentPage : Nat
deriving Repr, DecidableEq

/-- `Math.ceil(totalCount / limit)` for a natural count and positive
natural limit, as computed at line 90 of the controller. There is no
lower bound of one page. -/
def totalPagesCalc (totalCount limit : Nat) : Nat :=
  (totalCount + limit - 1) / limit

/-- `getPrompts`: build the query, page the matching records, count the
matches and report pagination metadata. Store-side sorting is external
ordering and is not modelled; `skip`/`limit` become drop/take. -/
def getPrompts (store : List Prompt) (fs : FilterSet) (page limit : Nat) :
    ListResponse :=
  let q := buildQuery fs
  let matched := store.filter (matchQuery q)
  { prompts := (matched.drop ((page - 1) * limit)).take limit
    totalPages := totalPagesCalc matched.length limit
    totalCount := matched.length
    currentPage := page }

/-- Outcome of the single-record fetch endpoint. -/
inductive FetchResult where
  | ok (p : Prompt)
  | notFound
  | forbidden
deriving Repr, DecidableEq

/-- `getPromptById` (lines 105-126): resolve by id, 404 when absent, then
the access check — 403 exactly when the record is `private` and the
requester is neither the creator nor in `sharedWith`. -/
def getPromptById (store : List Prompt) (userId id : String) : FetchResult :=
  match findById store id with
  | none => FetchResult.notFound
  | some p =>
    if p.visibility == "private" && p.creator != userId &&
        !(p.sharedWith.contains userId) then
      FetchResult.forbidden
    else
      FetchResult.ok p

/-- The updatable fields a PUT body may carry (`{...req.body}` passed to
`findByIdAndUpdate`, which `$set`s the present keys). -/
structure Patch where
  title : Option String := none
  description : Option String := none
  tags : Option (List String) := none
  category : Option String := none
  visibility : Option String := none
  sharedWith : Option (List String) := none
deriving Repr

/-- Apply the present keys of a patch to a record (`findByIdAndUpdate`
with the spread body). The `creator` field is not among the body fields
the update writes through this endpoint model. -/
def applyPatch (p : Prompt) (b : Patch) : Prompt :=
  { p with
    title := b.title.getD p.title
    description := b.description.getD p.description
    tags := b.tags.getD p.tags
    category := b.category.getD p.category
    visibility := b.visibility.getD p.visibility
    sharedWith := b.sharedWith.getD p.sharedWith }

/-- Outcome of the update endpoint. -/
inductive MutResult where
  | ok (p : Prompt)
  | notFound
  | forbidden
deriving Repr, DecidableEq

/-- Replace the record with the given id in the store. -/
def storeSet (store : List Prompt) (id : String) (p : Prompt) : List Prompt :=
  store.map (fun q => if q.id == id then p else q)

/-- `updatePrompt` (lines 129-152): resolve, 404 when absent, 403 when the
requester is not the creator of the fetched (pre-mutation) record, else
write the patched record. Returns the response and the store after the
call. -/
def updatePrompt (store : List Prompt) (userId id : String) (b : Patch) :
    MutResult × List Prompt :=
  match findById store id with
  | none => (MutResult.notFound, store)
  | some p =>
    if p.creator != userId then
      (MutResult.forbidden, store)
    else
      let p2 := applyPatch p b
      (MutResult.ok p2, storeSet store id p2)

/-- Outcome of the delete endpoint. -/
inductive DelResult where
  | okDeleted
  | notFound
  | forbidden
deriving Repr, DecidableEq

/-- `deletePrompt` (lines 155-173): resolve, 404 when absent, 403 when the
requester is not the creator, else remove the record. -/
def deletePrompt (store : List Prompt) (userId id : String) :
    DelResult × List Prompt :=
  match findById store id with
  | none => (DelResult.notFound, store)
  | some p =>
    if p.creator != userId then
      (DelResult.forbidden, store)
    else
      (DelResult.okDeleted, store.filter (fun q => !(q.id == id)))

/-- Outcome of the rating endpoint. -/
inductive RateResult where
  | ok (p : Prompt)
  | notFound
  | validationError
deriving Repr, DecidableEq

/-- Modelled from the spec: `SmartPrompt.addRating` lives in the model
file `server/models/SmartPrompt.js`, which is not part of the sources;
per the spec it overwrites the existing entry of a rater who already
rated, otherwise appends, and recomputes the average over the full list. -/
def addRating (p : Prompt) (userId : String) (r : ℚ) : Prompt :=
  let rs :=
    if p.ratings.any (fun e => e.1 == userId) then
      p.ratings.map (fun e => if e.1 == userId then (e.1, r) else e)
    else
      p.ratings ++ [(userId, r)]
  { p with
    ratings := rs
    averageRating := (rs.map (fun e => e.2)).sum / (rs.length : ℚ) }

/-- `ratePrompt` (lines 176-195): resolve, 404 when absent, then the range
check `rating < 1 || rating > 5` — a 400 leaves the store untouched —
else apply `addRating`. The check is a pure range test on the request
number; it does not test integrality. -/
def ratePrompt (store : List Prompt) (userId id : String) (r : ℚ) :
    RateResult × List Prompt :=
  match findById store id with
  | none => (RateResult.notFound, store)
  | some p =>
    if r < 1 ∨ r > 5 then
      (RateResult.validationError, store)
    else
      let p2 := addRating p userId r
      (RateResult.ok p2, storeSet store id p2)

/-- A generic JS object with string values, in key order; later writes to
an existing key update it in place. -/
def objSet : List (String × String) → String → String → List (String × String)
  | [], k, v => [(k, v)]
  | (k2, v2) :: rest, k, v =>
    if k2 == k then (k2, v) :: rest else (k2, v2) :: objSet rest k v

/-- Read a key of a JS object model. -/
def objGet (o : List (String × String)) (k : String) : Option String :=
  o.lookup k

/-- `createPrompt` (lines 4-18): the stored document data is
`{...req.body, creator: req.userId}` — the body keys in order, then the
`creator` key written last, overriding any `creator` the body carried. -/
def createPromptData (body : List (String × String)) (userId : String) :
    List (String × String) :=
  objSet body "creator" userId

/-! Client side: the tools state container (`ToolsProvider`). -/

/-- The duck-typed `categories` field of a tool: the source branches on
`Array.isArray` versus `typeof string` at every read site. -/
inductive CategoriesField where
  | single (s : String)
  | multiple (l : List String)
deriving Repr, DecidableEq

/-- A tool record as the client reads it. Optional fields model keys that
may be absent; an empty string present in `category` is falsy in the JS
truthiness guards and so behaves like an absent key. -/
structure Tool where
  name : String
  description : String
  category : Option String := none
  categories : Option CategoriesField := none
  pricing : Option String := none
  rating : ℚ := 0
  reviewCount : Nat := 0
deriving Repr, DecidableEq

/-- The filter state of the container. -/
structure Filters where
  search : String := ""
  category : String := "all"
  pricing : String := "all"
  sort : String := "rating-desc"
deriving Repr, DecidableEq

/-- One cached page: the fetched tools and the reported page count. -/
structure CacheEntry where
  tools : List Tool
  totalPages : Nat
deriving Repr, DecidableEq

/-- `JSON.stringify({ ...filters, page: currentPage })`: a string key
determined by the four filter fields and the page, in object key order. -/
def cacheKey (f : Filters) (page : Nat) : String :=
  "\x7b\"search\":\"" ++ f.search ++ "\",\"category\":\"" ++ f.category ++
    "\",\"pricing\":\"" ++ f.pricing ++ "\",\"sort\":\"" ++ f.sort ++
    "\",\"page\":" ++ toString page ++ "\x7d"

/-- The cache object: an association of cache keys to entries. A JS object
write replaces the value of an existing key. -/
def cacheSet : List (String × CacheEntry) → String → CacheEntry →
    List (String × CacheEntry)
  | [], k, e => [(k, e)]
  | (k2, e2) :: rest, k, e =>
    if k2 == k then (k2, e) :: rest else (k2, e2) :: cacheSet rest k e

/-- The component state touched by `loadTools`. -/
structure ClientState where
  tools : List Tool
  loading : Bool
  error : Option String
  filters : Filters
  toolsCache : List (String × CacheEntry)
  currentPage : Nat
  totalPages : Nat
deriving Repr, DecidableEq

/-- The outcome of the one network round trip `loadTools` may make: the
HTTP client is external, so the response (or its failure) is a parameter. -/
inductive FetchOutcome where
  | success (tools : List Tool) (total : Nat) (pages : Nat)
  | failure
deriving Repr, DecidableEq

/-- `loadTools` (lines 22-64) as a state transition. Returns the state
after the call and whether a network fetch was issued. Cache hit: serve
the entry, no fetch. Cache miss: fetch; on success store the page under
the key and display it; in the catch branch set the error message and
touch nothing else. `finally` clears `loading` on every path. -/
def loadTools (s : ClientState) (fetch : FetchOutcome) : ClientState × Bool :=
  let key := cacheKey s.filters s.currentPage
  match s.toolsCache.lookup key with
  | some e =>
    ({ s with loading := false, error := none
              tools := e.tools, totalPages := e.totalPages }, false)
  | none =>
    match fetch with
    | .success fetchedTools _total pages =>
      ({ s with loading := false, error := none
                tools := fetchedTools
                totalPages := pages
                toolsCache := cacheSet s.toolsCache key ⟨fetchedTools, pages⟩ },
       true)
    | .failure =>
      ({ s with loading := false
                error := some "Failed to load tools. Please try again." },
       true)

/-- `stats[category] = (stats[category] || 0) + 1` on the stats object. -/
def bump : List (String × Nat) → String → List (String × Nat)
  | [], c => [(c, 1)]
  | (k, n) :: rest, c =>
    if k == c then (k, n + 1) :: rest else (k, n) :: bump rest c

/-- The inner `addToStats` of `categoryStats`: a falsy (empty) category is
skipped, otherwise its count is incremented. -/
def addToStats (stats : List (String × Nat)) (c : String) :
    List (String × Nat) :=
  if c = "" then stats else bump stats c

/-- The `if (tool.category) addToStats(tool.category)` part of the
`categoryStats` loop body: count the scalar category field when truthy. -/
def catFold (cat : Option String) (stats : List (String × Nat)) :
    List (String × Nat) :=
  match cat with
  | some c => if c = "" then stats else addToStats stats c
  | none => stats

/-- The `if (tool.categories) ...` part of the loop body: count every
entry of an array-valued `categories`, or the string itself when the
field is a truthy string. -/
def catsFold (cats : Option CategoriesField) (stats : List (String × Nat)) :
    List (String × Nat) :=
  match cats with
  | some (.multiple l) => l.foldl addToStats stats
  | some (.single c) => if c = "" then stats else addToStats stats c
  | none => stats

/-- The per-tool body of the `categoryStats` loop (lines 96-113): the
`category` pass followed by the `categories` pass. -/
def statsStep (stats : List (String × Nat)) (t : Tool) :
    List (String × Nat) :=
  catsFold t.categories (catFold t.category stats)

/-- The derived `categoryStats` view over the loaded tools. -/
def categoryStats (tools : List Tool) : List (String × Nat) :=
  tools.foldl statsStep []

/-- Read a count out of the stats object, `stats[c] || 0`. -/
def statsGet (stats : List (String × Nat)) (c : String) : Nat :=
  match stats.lookup c with
  | some n => n
  | none => 0

/-- Occurrences of a category value in the scalar `category` field. -/
def catCount (cat : Option String) (c : String) : Nat :=
  match cat with
  | some d => if d = c then 1 else 0
  | none => 0

/-- Occurrences of a category value among the `categories` entries. -/
def catsCount (cats : Option CategoriesField) (c : String) : Nat :=
  match cats with
  | some (.multiple l) => l.countP (fun d => d == c)
  | some (.single d) => if d = c then 1 else 0
  | none => 0

/-- Occurrence count of a category value contributed by one tool under
the source counting logic: one for a matching `category` field plus one
for each matching entry of `categories` (or one for a matching string-
valued `categories`). -/
def occCount (t : Tool) (c : String) : Nat :=
  catCount t.category c + catsCount t.categories c

/-- Stated from the claim wording, for comparison with `categoryStats`:
the number of loaded records whose `category` or `categories` fields
contain the value, each record contributing at most one. -/
def specCategoryCount (tools : List Tool) (c : String) : Nat :=
  tools.countP (fun t =>
    (match t.category with
     | some d => d == c
     | none => false) ||
    (match t.categories with
     | some (.multiple l) => l.contains c
     | some (.single d) => d == c
     | none => false))

/-! Concrete records used by counterexamples and witnesses. -/

/-- A listing request carrying both an `accessibleBy` filter and a
free-text search. -/
def fsBoth : FilterSet := { accessibleBy := some "u1", search := some "x" }

/-- A private prompt owned by `u2`, shared with nobody, whose title
matches the search text `x`. -/
def pPriv : Prompt :=
  { id := "p1", creator := "u2", title := "xyz", description := "d"
    tags := [], category := "c", visibility := "private", sharedWith := []
    ratings := [], averageRating := 0 }

/-- A prompt whose visibility is the non-public, non-private value
`shared`, owned by `owner` and shared with nobody. -/
def pShared : Prompt :=
  { id := "p1", creator := "owner", title := "t", description := "d"
    tags := [], category := "c", visibility := "shared", sharedWith := []
    ratings := [], averageRating := 0 }

/-- A public prompt with no ratings, owned by `u2`. -/
def pPub : Prompt :=
  { id := "p1", creator := "u2", title := "t", description := "d"
    tags := [], category := "c", visibility := "public", sharedWith := []
    ratings := [], averageRating := 0 }

/-- A tool that names category `X` both in its `category` field and in
its `categories` array. -/
def tX : Tool :=
  { name := "n", description := "d", category := some "X"
    categories := some (.multiple ["X"]) }

/-- An initial client state with an empty cache on page one. -/
def st0 : ClientState :=
  { tools := [], loading := true, error := none, filters := {}
    toolsCache := [], currentPage := 1, totalPages := 1 }

/-! Helper lemmas. -/

/-- Writing a key into a JS object model and reading it back yields the
written value. -/
theorem objGet_objSet (o : List (String × String)) (k v : String) :
    objGet (objSet o k v) k = some v := by
  induction o with
  | nil => simp [objSet, objGet, List.lookup]
  | cons hd tl ih =>
    obtain ⟨k2, v2⟩ := hd
    by_cases hk : k2 == k
    · have hk2 : k == k2 := BEq.symm hk
      simp [objSet, objGet, List.lookup, hk, hk2]
    · have hk2 : (k == k2) = false := by
        cases h2 : k == k2
        · rfl
        · exact absurd (BEq.symm h2) (by simp [hk])
      simpa [objSet, objGet, List.lookup, hk, hk2] using ih

/-- Writing a cache key and looking it up yields the stored entry. -/
theorem lookup_cacheSet_self (c : List (String × CacheEntry))
    (k : String) (e : CacheEntry) :
    (cacheSet c k e).lookup k = some e := by
  induction c with
  | nil => simp [cacheSet, List.lookup]
  | cons hd tl ih =>
    obtain ⟨k2, e2⟩ := hd
    by_cases hk : k2 == k
    · have hk2 : k == k2 := BEq.symm hk
      simp [cacheSet, List.lookup, hk, hk2]
    · have hk2 : (k == k2) = false := by
        cases h2 : k == k2
        · rfl
        · exact absurd (BEq.symm h2) (by simp [hk])
      simpa [cacheSet, List.lookup, hk, hk2] using ih

/-! Claim theorems. -/

/-- C10: the stored creator field of a created prompt equals the
authenticated requester id for every request body, including bodies that
attempt to supply a creator value themselves: the `creator` key is
written after the body fields and overrides any injected owner. -/
theorem C10_creator_overrides_body (body : List (String × String))
    (userId : String) :
    objGet (createPromptData body userId) "creator" = some userId :=
  objGet_objSet body "creator" userId

/-- C1: evaluating the listing query built from a filter set holding both
an accessibleBy filter and a free-text search at a private record owned
by another user and shared with nobody: the record fails the accessibleBy
disjunction, yet the built predicate matches it, because the search
assignment to the single `$or` key replaced the accessibleBy
disjunction. -/
theorem C1_search_overwrites_accessibleBy :
    matchQuery (buildQuery fsBoth) pPriv = true ∧
    (pPriv.visibility == "public" || pPriv.creator == "u1" ||
      pPriv.sharedWith.contains "u1") = false ∧
    buildQuery fsBoth = buildQuery { search := some "x" } := by
  refine ⟨by decide, by decide, by decide⟩

/-- C2 counterexample: a record whose visibility is the non-public value
`shared`, fetched by a requester who is neither the owner nor in the
shared-with set, is returned rather than rejected: the access check of
`getPromptById` tests only for the literal value `private`, so the claim
that every non-public visibility yields Forbidden for such a requester is
false. -/
theorem C2_counterexample :
    getPromptById [pShared] "stranger" "p1" = FetchResult.ok pShared ∧
    pShared.visibility ≠ "public" ∧
    pShared.creator ≠ "stranger" ∧
    pShared.sharedWith.contains "stranger" = false := by
  refine ⟨by decide, by decide, by decide, by decide⟩

/-- C2 amended: for every existing record, the single-record fetch
returns Forbidden exactly when the record has visibility `private` and
the requester is neither the owner nor in the shared-with set; in every
other case — including records with non-public visibility values other
than `private` — it returns the record. -/
theorem C2_private_only_forbidden (store : List Prompt) (userId id : String)
    (p : Prompt) (h : findById store id = some p) :
    (getPromptById store userId id = FetchResult.forbidden ↔
      (p.visibility = "private" ∧ p.creator ≠ userId ∧
        p.sharedWith.contains userId = false)) ∧
    (¬ (p.visibility = "private" ∧ p.creator ≠ userId ∧
        p.sharedWith.contains userId = false) →
      getPromptById store userId id = FetchResult.ok p) := by
  have hg : getPromptById store userId id =
      if (p.visibility == "private" && p.creator != userId &&
          !(p.sharedWith.contains userId)) = true
      then FetchResult.forbidden else FetchResult.ok p := by
    unfold getPromptById
    rw [h]
  by_cases hc : (p.visibility == "private" && p.creator != userId &&
      !(p.sharedWith.contains userId)) = true
  · rw [if_pos hc] at hg
    have hp : p.visibility = "private" ∧ p.creator ≠ userId ∧
        p.sharedWith.contains userId = false := by
      simp only [Bool.and_eq_true, beq_iff_eq, bne_iff_ne,
        Bool.not_eq_true'] at hc
      exact ⟨hc.1.1, hc.1.2, hc.2⟩
    exact ⟨by rw [hg]; exact iff_of_true rfl hp, fun hn => absurd hp hn⟩
  · rw [if_neg hc] at hg
    have hp : ¬ (p.visibility = "private" ∧ p.creator ≠ userId ∧
        p.sharedWith.contains userId = false) := by
      intro hpp
      apply hc
      simp only [Bool.and_eq_true, beq_iff_eq, bne_iff_ne, Bool.not_eq_true']
      exact ⟨⟨hpp.1, hpp.2.1⟩, hpp.2.2⟩
    refine ⟨?_, fun _ => hg⟩
    rw [hg]
    simp only [hp, iff_false]
    intro habs
    exact FetchResult.noConfusion habs

/-- C2 witness: the amended theorem applied to the concrete store holding
the `shared`-visibility record and the stranger requester. -/
theorem C2_private_only_forbidden_witness :
    (getPromptById [pShared] "stranger" "p1" = FetchResult.forbidden ↔
      (pShared.visibility = "private" ∧ pShared.creator ≠ "stranger" ∧
        pShared.sharedWith.contains "stranger" = false)) ∧
    (¬ (pShared.visibility = "private" ∧ pShared.creator ≠ "stranger" ∧
        pShared.sharedWith.contains "stranger" = false) →
      getPromptById [pShared] "stranger" "p1" = FetchResult.ok pShared) :=
  C2_private_only_forbidden [pShared] "stranger" "p1" pShared (by decide)

/-- C3: for every existing record and every requester other than the
creator, update and delete return Forbidden and the store after the call
equals the store before it, for every patch: the ownership test reads the
creator of the fetched pre-mutation record, so no patch content can make
the check pass. -/
theorem C3_nonowner_mutation_forbidden (store : List Prompt)
    (userId id : String) (p : Prompt) (b : Patch)
    (h : findById store id = some p) (hown : p.creator ≠ userId) :
    updatePrompt store userId id b = (MutResult.forbidden, store) ∧
    deletePrompt store userId id = (DelResult.forbidden, store) := by
  have hb : (p.creator != userId) = true := by
    simp [bne_iff_ne, hown]
  constructor
  · unfold updatePrompt
    rw [h]
    simp only [hb, if_true]
  · unfold deletePrompt
    rw [h]
    simp only [hb, if_true]

/-- C3 witness: the non-owner mutation theorem applied to a concrete
store, requester and patch. -/
theorem C3_nonowner_mutation_forbidden_witness :
    updatePrompt [pPub] "u9" "p1" { title := some "hacked" } =
      (MutResult.forbidden, [pPub]) ∧
    deletePrompt [pPub] "u9" "p1" = (DelResult.forbidden, [pPub]) :=
  C3_nonowner_mutation_forbidden [pPub] "u9" "p1" pPub
    { title := some "hacked" } (by decide) (by decide)

/-- C6: in each of fetch, update, delete and rate, the result is NotFound
exactly when the id does not resolve in the store; hence a Forbidden or
ValidationError outcome, being a distinct constructor, occurs only for an
existing record, and an absent id can never surface as anything but
NotFound. -/
theorem C6_notfound_before_auth (store : List Prompt) (userId id : String)
    (b : Patch) (r : ℚ) :
    (getPromptById store userId id = FetchResult.notFound ↔
      findById store id = none) ∧
    ((updatePrompt store userId id b).1 = MutResult.notFound ↔
      findById store id = none) ∧
    ((deletePrompt store userId id).1 = DelResult.notFound ↔
      findById store id = none) ∧
    ((ratePrompt store userId id r).1 = RateResult.notFound ↔
      findById store id = none) := by
  cases h : findById store id with
  | none =>
    simp [getPromptById, updatePrompt, deletePrompt, ratePrompt, h]
  | some p =>
    refine ⟨?_, ?_, ?_, ?_⟩
    · simp only [getPromptById, h]
      split <;> simp
    · simp only [updatePrompt, h]
      split <;> simp
    · simp only [deletePrompt, h]
      split <;> simp
    · simp only [ratePrompt, h]
      split <;> simp

/-- For a positive limit, the integer computation of `totalPagesCalc`
equals the rational ceiling of count over limit. -/
theorem totalPagesCalc_eq_ceil (c l : ℕ) (hl : 0 < l) :
    totalPagesCalc c l = ⌈(c : ℚ) / (l : ℚ)⌉₊ := by
  rcases Nat.eq_zero_or_pos c with hc | hc
  · subst hc
    have h0 : totalPagesCalc 0 l = 0 := by
      unfold totalPagesCalc
      exact Nat.div_eq_of_lt (by omega)
    rw [h0, Nat.cast_zero, zero_div, Nat.ceil_zero]
  · have hlq : (0 : ℚ) < (l : ℚ) := by exact_mod_cast hl
    have h1 : totalPagesCalc c l * l ≤ c + l - 1 := Nat.div_mul_le_self _ _
    have h2 : c + l - 1 < totalPagesCalc c l * l + l := Nat.lt_div_mul_add hl
    have htpos : 1 ≤ totalPagesCalc c l := by
      unfold totalPagesCalc
      exact (Nat.one_le_div_iff hl).2 (by omega)
    have hA : c ≤ totalPagesCalc c l * l := by omega
    have hsub : (totalPagesCalc c l - 1) * l = totalPagesCalc c l * l - l := by
      rw [Nat.sub_mul, Nat.one_mul]
    have hB : (totalPagesCalc c l - 1) * l < c := by omega
    symm
    rw [Nat.ceil_eq_iff (by omega : totalPagesCalc c l ≠ 0)]
    constructor
    · rw [lt_div_iff₀ hlq]
      exact_mod_cast hB
    · rw [div_le_iff₀ hlq]
      exact_mod_cast hA

/-- C4 counterexample: a listing over an empty store with the default
page size reports zero total pages: `Math.ceil(0 / 12)` is zero and the
code applies no lower bound of one, so the claimed
`max(1, ceil(totalCount / limit))` does not hold at totalCount zero. -/
theorem C4_counterexample :
    (getPrompts [] {} 1 12).totalCount = 0 ∧
    (getPrompts [] {} 1 12).totalPages = 0 ∧
    max 1 ⌈(((getPrompts [] {} 1 12).totalCount : ℚ)) / (12 : ℚ)⌉₊ = 1 ∧
    (getPrompts [] {} 1 12).totalPages ≠
      max 1 ⌈(((getPrompts [] {} 1 12).totalCount : ℚ)) / (12 : ℚ)⌉₊ := by
  have h0 : (getPrompts [] {} 1 12).totalCount = 0 := rfl
  have h1 : (getPrompts [] {} 1 12).totalPages = 0 := rfl
  rw [h0, h1]
  norm_num

/-- C4 amended: for every store, filter set, page and positive limit the
listing reports `totalPages = ceil(totalCount / limit)` with no lower
bound: in particular the reported page count is zero, not one, when the
total count is zero. -/
theorem C4_totalPages_ceil (store : List Prompt) (fs : FilterSet)
    (page limit : Nat) (hl : 0 < limit) :
    (getPrompts store fs page limit).totalPages =
      ⌈((getPrompts store fs page limit).totalCount : ℚ) / (limit : ℚ)⌉₊ :=
  totalPagesCalc_eq_ceil _ _ hl

/-- C4 witness: the amended page-count law applied at a concrete store
and the default page size. -/
theorem C4_totalPages_ceil_witness :
    (getPrompts [pPub] {} 1 12).totalPages =
      ⌈((getPrompts [pPub] {} 1 12).totalCount : ℚ) / (12 : ℚ)⌉₊ :=
  C4_totalPages_ceil [pPub] {} 1 12 (by norm_num)

/-- C5 counterexample: the non-integer rating of five halves lies inside
the accepted range and is applied: the endpoint returns the updated
record and the stored record changes, while the claim demands a
ValidationError and no state change for every non-integer value. -/
theorem C5_counterexample :
    (¬ ∃ n : ℤ, ((5 : ℚ) / 2) = (n : ℚ)) ∧
    1 ≤ (5 : ℚ) / 2 ∧ (5 : ℚ) / 2 ≤ 5 ∧
    (ratePrompt [pPub] "u1" "p1" ((5 : ℚ) / 2)).1 =
      RateResult.ok (addRating pPub "u1" ((5 : ℚ) / 2)) ∧
    (ratePrompt [pPub] "u1" "p1" ((5 : ℚ) / 2)).2 ≠ [pPub] := by
  have hfind : findById [pPub] "p1" = some pPub := by decide
  have hg : ratePrompt [pPub] "u1" "p1" ((5 : ℚ) / 2) =
      (RateResult.ok (addRating pPub "u1" ((5 : ℚ) / 2)),
        storeSet [pPub] "p1" (addRating pPub "u1" ((5 : ℚ) / 2))) := by
    unfold ratePrompt
    simp only [hfind]
    rw [if_neg ?_]
    rintro (h | h) <;> norm_num at h
  have hset : storeSet [pPub] "p1" (addRating pPub "u1" ((5 : ℚ) / 2)) =
      [addRating pPub "u1" ((5 : ℚ) / 2)] := by
    unfold storeSet
    simp [pPub]
  refine ⟨?_, by norm_num, by norm_num, by rw [hg], ?_⟩
  · rintro ⟨n, hn⟩
    have h5 : (5 : ℚ) = 2 * (n : ℚ) := by
      field_simp at hn
      linarith
    have h5i : (5 : ℤ) = 2 * n := by exact_mod_cast h5
    omega
  · rw [hg, hset]
    intro hL
    have hx : addRating pPub "u1" ((5 : ℚ) / 2) = pPub := by
      simpa using hL
    have hr : (addRating pPub "u1" ((5 : ℚ) / 2)).ratings = pPub.ratings := by
      rw [hx]
    simp [addRating, pPub] at hr

/-- C5 amended: for every existing record the rate endpoint returns
ValidationError and leaves the store unchanged exactly for submitted
values outside the range one to five; every value inside the range,
integer or not, is applied through `addRating`. -/
theorem C5_range_only_validation (store : List Prompt) (userId id : String)
    (r : ℚ) (p : Prompt) (h : findById store id = some p) :
    ((r < 1 ∨ 5 < r) → ratePrompt store userId id r =
      (RateResult.validationError, store)) ∧
    (1 ≤ r → r ≤ 5 → ratePrompt store userId id r =
      (RateResult.ok (addRating p userId r),
        storeSet store id (addRating p userId r))) := by
  have hg : ratePrompt store userId id r =
      if r < 1 ∨ r > 5 then (RateResult.validationError, store)
      else (RateResult.ok (addRating p userId r),
        storeSet store id (addRating p userId r)) := by
    unfold ratePrompt
    rw [h]
  constructor
  · intro hr
    rw [hg, if_pos hr]
  · intro h1 h5
    rw [hg, if_neg ?_]
    rintro (hlt | hgt)
    · exact absurd h1 (not_le.mpr hlt)
    · exact absurd h5 (not_le.mpr hgt)

/-- C5 witness: an in-range rating on a concrete store is applied. -/
theorem C5_range_only_validation_witness :
    ratePrompt [pPub] "u1" "p1" 3 =
      (RateResult.ok (addRating pPub "u1" 3),
        storeSet [pPub] "p1" (addRating pPub "u1" 3)) :=
  (C5_range_only_validation [pPub] "u1" "p1" 3 pPub (by decide)).2
    (by norm_num) (by norm_num)

/-- C7: loading serves a present cache entry without issuing a fetch; on
a miss it issues one fetch, displays the fetched page, stores it in the
cache under the key of the current filter-plus-page combination, and a
repeated load of the same combination is then served from the cache with
no further fetch and no state change. -/
theorem C7_cache_hit_and_populate (s : ClientState) (e : CacheEntry)
    (ts : List Tool) (tot pages : Nat) (f : FetchOutcome) :
    (s.toolsCache.lookup (cacheKey s.filters s.currentPage) = some e →
      loadTools s f =
        ({ s with loading := false, error := none
                  tools := e.tools, totalPages := e.totalPages }, false)) ∧
    (s.toolsCache.lookup (cacheKey s.filters s.currentPage) = none →
      (loadTools s (.success ts tot pages)).2 = true ∧
      (loadTools s (.success ts tot pages)).1.tools = ts ∧
      (loadTools s (.success ts tot pages)).1.totalPages = pages ∧
      (loadTools s (.success ts tot pages)).1.toolsCache.lookup
          (cacheKey s.filters s.currentPage) = some ⟨ts, pages⟩ ∧
      loadTools (loadTools s (.success ts tot pages)).1 f =
        ((loadTools s (.success ts tot pages)).1, false)) := by
  constructor
  · intro hh
    unfold loadTools
    simp only [hh]
  · intro hm
    have h1 : loadTools s (.success ts tot pages) =
        ({ s with loading := false, error := none, tools := ts
                  totalPages := pages
                  toolsCache := cacheSet s.toolsCache
                    (cacheKey s.filters s.currentPage) ⟨ts, pages⟩ }, true) := by
      unfold loadTools
      simp only [hm]
    rw [h1]
    refine ⟨rfl, rfl, rfl, lookup_cacheSet_self _ _ _, ?_⟩
    unfold loadTools
    simp only [lookup_cacheSet_self]

/-- C7 witness: from the empty-cache initial state, the first load of a
page fetches and populates the cache and the second load of the same
combination is a hit. -/
theorem C7_cache_hit_and_populate_witness :
    (loadTools st0 (.success [tX] 1 1)).2 = true ∧
    (loadTools st0 (.success [tX] 1 1)).1.tools = [tX] ∧
    (loadTools st0 (.success [tX] 1 1)).1.totalPages = 1 ∧
    (loadTools st0 (.success [tX] 1 1)).1.toolsCache.lookup
        (cacheKey st0.filters st0.currentPage) = some ⟨[tX], 1⟩ ∧
    loadTools (loadTools st0 (.success [tX] 1 1)).1 FetchOutcome.failure =
      ((loadTools st0 (.success [tX] 1 1)).1, false) :=
  (C7_cache_hit_and_populate st0 ⟨[], 0⟩ [tX] 1 1 FetchOutcome.failure).2 rfl

/-- C8: when the current combination is not cached and the fetch fails,
the loader sets the user-visible error message and the resulting state
differs from the previous one only in the loading flag and the error: the
displayed tools list, the page count and every cached page survive. -/
theorem C8_failure_preserves_cache (s : ClientState)
    (hm : s.toolsCache.lookup (cacheKey s.filters s.currentPage) = none) :
    loadTools s FetchOutcome.failure =
      ({ s with loading := false
                error := some "Failed to load tools. Please try again." },
       true) := by
  unfold loadTools
  simp only [hm]

/-- C8 witness: the failure path evaluated from the initial state. -/
theorem C8_failure_preserves_cache_witness :
    loadTools st0 FetchOutcome.failure =
      ({ st0 with loading := false
                  error := some "Failed to load tools. Please try again." },
       true) :=
  C8_failure_preserves_cache st0 rfl

/-- Incrementing a key of the stats object raises its read count by one
and leaves every other key unchanged. -/
theorem statsGet_bump (s : List (String × Nat)) (d c : String) :
    statsGet (bump s d) c = statsGet s c + if c = d then 1 else 0 := by
  induction s with
  | nil =>
    by_cases h : c = d
    · subst h
      simp [bump, statsGet, List.lookup]
    · have hb : (c == d) = false := by simp [h]
      simp [bump, statsGet, List.lookup, hb, h]
  | cons hd tl ih =>
    obtain ⟨k, n⟩ := hd
    by_cases hk : k = d
    · subst hk
      by_cases hck : c = k
      · subst hck
        simp [bump, statsGet, List.lookup]
      · have hb : (c == k) = false := by simp [hck]
        simp [bump, statsGet, List.lookup, hb, hck]
    · have hkb : (k == d) = false := by simp [hk]
      by_cases hck : c = k
      · subst hck
        have hcd : ¬ c = d := hk
        simp [bump, statsGet, List.lookup, hkb, hcd]
      · have hcb : (c == k) = false := by simp [hck]
        simpa [bump, statsGet, List.lookup, hkb, hcb] using ih

/-- `addToStats` raises the count of a nonempty key by one when it is the
added category and otherwise changes nothing. -/
theorem statsGet_addToStats (s : List (String × Nat)) (d c : String)
    (hc : c ≠ "") :
    statsGet (addToStats s d) c = statsGet s c + if c = d then 1 else 0 := by
  by_cases hd : d = ""
  · subst hd
    simp [addToStats, hc]
  · rw [addToStats, if_neg hd, statsGet_bump]

/-- Folding `addToStats` over a list of category values adds the number
of occurrences of a nonempty key to its count. -/
theorem statsGet_foldl_addToStats (l : List String)
    (s : List (String × Nat)) (c : String) (hc : c ≠ "") :
    statsGet (l.foldl addToStats s) c =
      statsGet s c + l.countP (fun d => d == c) := by
  induction l generalizing s with
  | nil => simp
  | cons d tl ih =>
    rw [List.foldl_cons, ih, statsGet_addToStats _ _ _ hc, List.countP_cons]
    by_cases h : d = c
    · subst h
      simp
      omega
    · simp [h, Ne.symm h]

/-- Counting the scalar category field adds its occurrence count for a
nonempty key. -/
theorem statsGet_catFold (cat : Option String) (s : List (String × Nat))
    (c : String) (hc : c ≠ "") :
    statsGet (catFold cat s) c = statsGet s c + catCount cat c := by
  cases cat with
  | none => simp [catFold, catCount]
  | some d =>
    by_cases hd : d = ""
    · subst hd
      simp [catFold, catCount, Ne.symm hc]
    · rw [catFold, if_neg hd, statsGet_addToStats _ _ _ hc, catCount]
      by_cases hdc : d = c
      · subst hdc
        simp
      · simp [hdc, Ne.symm hdc]

/-- Counting the `categories` field adds its occurrence count for a
nonempty key. -/
theorem statsGet_catsFold (cats : Option CategoriesField)
    (s : List (String × Nat)) (c : String) (hc : c ≠ "") :
    statsGet (catsFold cats s) c = statsGet s c + catsCount cats c := by
  cases cats with
  | none => simp [catsFold, catsCount]
  | some cf =>
    cases cf with
    | multiple l =>
      rw [catsFold, catsCount]
      exact statsGet_foldl_addToStats l s c hc
    | single d =>
      by_cases hd : d = ""
      · subst hd
        simp [catsFold, catsCount, Ne.symm hc]
      · rw [catsFold, if_neg hd, statsGet_addToStats _ _ _ hc, catsCount]
        by_cases hdc : d = c
        · subst hdc
          simp
        · simp [hdc, Ne.symm hdc]

/-- One pass of the `categoryStats` loop adds the occurrence count of a
nonempty category value contributed by the tool. -/
theorem statsGet_statsStep (s : List (String × Nat)) (t : Tool) (c : String)
    (hc : c ≠ "") :
    statsGet (statsStep s t) c = statsGet s c + occCount t c := by
  unfold statsStep occCount
  rw [statsGet_catsFold _ _ _ hc, statsGet_catFold _ _ _ hc]
  omega

/-- C9 counterexample: a single loaded tool naming category `X` both in
its `category` field and in its `categories` array is counted twice by
`categoryStats`, while the number of loaded records containing `X` — the
value the claim prescribes, each record contributing at most one — is
one. -/
theorem C9_counterexample :
    statsGet (categoryStats [tX]) "X" = 2 ∧
    specCategoryCount [tX] "X" = 1 ∧ (2 : Nat) ≠ 1 := by
  refine ⟨by decide, by decide, by decide⟩

/-- C9 amended: for every loaded tools list and nonempty category value,
`categoryStats` maps the value to the total number of occurrences
contributed per tool by its `category` field plus its `categories`
entries, so a record carrying the value in both fields contributes more
than one. -/
theorem C9_categoryStats_occurrences (tools : List Tool) (c : String)
    (hc : c ≠ "") :
    statsGet (categoryStats tools) c =
      (tools.map (fun t => occCount t c)).sum := by
  unfold categoryStats
  suffices h : ∀ s : List (String × Nat),
      statsGet (tools.foldl statsStep s) c =
        statsGet s c + (tools.map (fun t => occCount t c)).sum by
    simpa [statsGet, List.lookup] using h []
  induction tools with
  | nil => intro s; simp
  | cons t tl ih =>
    intro s
    rw [List.foldl_cons, ih, statsGet_statsStep _ _ _ hc, List.map_cons,
      List.sum_cons]
    omega

/-- C9 witness: the amended occurrence law evaluated at the double-count
tool and the category value `X`. -/
theorem C9_categoryStats_occurrences_witness :
    statsGet (categoryStats [tX]) "X" =
      ([tX].map (fun t => occCount t "X")).sum :=
  C9_categoryStats_occurrences [tX] "X" (by decide)

end SmartAiTools
